import Mathlib

/-!
# User-management API: access gate and account operations

A shallow embedding of `src/middleware.js` and `src/server.js` (with the part
of `src/script.js` that builds the block request), followed by the properties
proved about it.

Modelling conventions:

* The `users` table is a list of rows in table order; `result[0]` of a
  `SELECT` is the head of the selected list.
* Every route handler is a function from the store before the request to a
  response and the store after it.  Callbacks are run to completion, one
  request at a time.
* What the repository does not contain is a parameter, gathered in `Env`: the
  JSON-web-token library, bcrypt, the way the database compares a quoted
  string with the integer `id` column, the collation used to compare emails,
  and the `JWT_SECRET` environment variable.
* What can differ from one request to the next without being part of the
  request is gathered in `Oracle`: the clock and whether each database
  statement reports an error.
* JSON numbers are integers; `userIds` is absent or an array of scalars.
-/

namespace UserMgmt

/-! ## Data model -/

/-- The scalar JavaScript values that occur as ids. -/
inductive JsVal where
  | undefined
  | null
  | bool (b : Bool)
  | num (n : Int)
  | str (s : String)
  deriving DecidableEq, Repr

/-- One row of `users(id, name, email, password, status, last_login)`. -/
structure User where
  id : Int
  name : String
  email : String
  password : String
  status : String
  last_login : Option Nat
  deriving DecidableEq, Repr

/-- The account store: the rows of `users` and the next auto-increment id. -/
structure Store where
  rows : List User
  nextId : Int
  deriving DecidableEq, Repr

/-- The decoded claims of a token: `{ userId, iat, exp }`. -/
structure Payload where
  userId : JsVal
  iat : Option Nat
  exp : Option Nat
  deriving DecidableEq, Repr

/-- The reasons for which `jwt.verify` throws. -/
inductive JwtError where
  | malformed
  | invalidSignature
  | expired
  deriving DecidableEq, Repr

/-- The signature layer of the `jsonwebtoken` package: `encode key payload` is
the compact serialisation signed under `key`, and `decode token key` parses a
token and checks its signature under `key`. -/
structure JwtLib where
  encode : String → Payload → String
  decode : String → String → Except JwtError Payload

/-- The collaborators of the server that are not part of the repository. -/
structure Env where
  jwt : JwtLib
  /-- The call `bcrypt.hash(password, 10)`; the second argument is the random
  salt. -/
  bcryptHash : String → Nat → String
  /-- The call `bcrypt.compare(password, digest)`. -/
  bcryptCompare : String → String → Bool
  /-- The integer a quoted string stands for when the database compares it
  with the integer `id` column, if it stands for one. -/
  sqlNum : String → Option Int
  /-- Equality of two emails under the collation of the `email` column. -/
  emailEq : String → String → Bool
  /-- The variable `process.env.JWT_SECRET`. -/
  JWT_SECRET : Option String

/-- What varies between requests without being part of the request. -/
structure Oracle where
  /-- The clock, in seconds. -/
  now : Nat
  /-- The first database statement of the request reports an error. -/
  firstQueryFails : Bool
  /-- The second database statement of the request reports an error. -/
  secondQueryFails : Bool
  /-- The salt drawn by `bcrypt.hash`. -/
  salt : Nat
  deriving DecidableEq, Repr

deriving instance DecidableEq for Except

/-- The six routes of `server.js`. -/
inductive Route where
  | register
  | login
  | getUsers
  | block
  | unblock
  | delete
  deriving DecidableEq, Repr

/-- The fields of `req.body` that the handlers read; `none` is an absent
field. -/
structure Body where
  name : Option String
  email : Option String
  password : Option String
  userIds : Option (List JsVal)
  deriving DecidableEq, Repr

/-- A request: its route, its `Authorization` header and its body. -/
structure Request where
  route : Route
  authorization : Option String
  body : Body
  deriving DecidableEq, Repr

/-- A response: the HTTP status and the fields of the JSON body. -/
structure Response where
  status : Nat
  error : Option String
  message : Option String
  token : Option String
  logout : Bool
  users : Option (List User)
  deriving DecidableEq, Repr

/-- The response `res.status(code).json({ error })`. -/
def errorResponse (code : Nat) (msg : String) : Response :=
  { status := code, error := some msg, message := none, token := none,
    logout := false, users := none }

/-- The response `res.status(code).json({ message })`. -/
def messageResponse (code : Nat) (msg : String) : Response :=
  { status := code, error := none, message := some msg, token := none,
    logout := false, users := none }

/-! ## JavaScript and SQL primitives -/

/-- The array `s.split(sep)` for a one-character separator, on the characters
of `s`. -/
def jsSplit (sep : Char) : List Char → List (List Char)
  | [] => [[]]
  | c :: cs =>
    if c = sep then [] :: jsSplit sep cs
    else
      match jsSplit sep cs with
      | [] => [[c]]
      | w :: ws => (c :: w) :: ws

/-- The value of `req.header(Authorization)?.split(" ")[1]`; `none` is
`undefined`. -/
def headerToken (authorization : Option String) : Option String :=
  match authorization with
  | none => none
  | some h => ((jsSplit ' ' h.data).map String.mk)[1]?

/-- The test `!value` for a string field that may be absent. -/
def falsy (v : Option String) : Bool :=
  match v with
  | none => true
  | some s => s == ""

/-- The method `Array.prototype.includes` compares with SameValueZero: no
coercion between numbers and strings. -/
def jsIncludes (xs : List JsVal) (v : JsVal) : Bool :=
  xs.any fun x => x == v

/-- The comparison `id = ?` after the value has been escaped into the
statement: numbers compare as numbers, quoted strings are converted by the
database, `true` and `false` are 1 and 0, `NULL` equals nothing. -/
def sqlMatch (E : Env) (v : JsVal) (id : Int) : Bool :=
  match v with
  | .num n => n == id
  | .str s => E.sqlNum s == some id
  | .bool b => id == (if b then 1 else 0)
  | .null => false
  | .undefined => false

/-- The condition `id IN (?)` with an array bound to the placeholder. -/
def sqlIn (E : Env) (vs : List JsVal) (id : Int) : Bool :=
  vs.any fun v => sqlMatch E v id

/-- The rows of `SELECT * FROM users WHERE email = ?`. -/
def selectByEmail (E : Env) (st : Store) (email : String) : List User :=
  st.rows.filter fun u => E.emailEq u.email email

/-- The rows of `SELECT * FROM users WHERE id = ?`. -/
def selectById (E : Env) (st : Store) (v : JsVal) : List User :=
  st.rows.filter fun u => sqlMatch E v u.id

/-- The statement `UPDATE users SET status = ? WHERE id IN (?)`. -/
def updateStatus (E : Env) (st : Store) (vs : List JsVal) (status : String) : Store :=
  { st with rows := st.rows.map fun u =>
      if sqlIn E vs u.id then { u with status := status } else u }

/-- The statement `DELETE FROM users WHERE id IN (?)`. -/
def deleteRows (E : Env) (st : Store) (vs : List JsVal) : Store :=
  { st with rows := st.rows.filter fun u => !sqlIn E vs u.id }

/-- The statement `UPDATE users SET last_login = NOW() WHERE id = ?` with a
row id. -/
def updateLastLogin (st : Store) (id : Int) (now : Nat) : Store :=
  { st with rows := st.rows.map fun u =>
      if u.id == id then { u with last_login := some now } else u }

/-- Modelled from the spec: the table definition is not in the repository; a
new account is created with status `active`. -/
def defaultStatus : String := "active"

/-- The row created by `INSERT INTO users (name, email, password) VALUES (?, ?,
?)`: the id is the next auto-increment value, the status and `last_login`
take their defaults. -/
def newRow (st : Store) (name email password : String) : User :=
  { id := st.nextId, name := name, email := email, password := password,
    status := defaultStatus, last_login := none }

/-- The statement `INSERT INTO users (name, email, password) VALUES (?, ?, ?)`. -/
def insertUser (st : Store) (name email password : String) : Store :=
  { rows := st.rows ++ [newRow st name email password], nextId := st.nextId + 1 }

/-- The order of `ORDER BY last_login DESC`: later logins first, rows that
never logged in last. -/
def loginOrder (a b : User) : Prop :=
  match a.last_login, b.last_login with
  | some x, some y => y ≤ x
  | some _, none => True
  | none, some _ => False
  | none, none => True

instance : DecidableRel loginOrder := fun a b => by
  unfold loginOrder
  cases a.last_login <;> cases b.last_login <;> infer_instance

/-- The rows of `SELECT * FROM users ORDER BY last_login DESC`. -/
def selectAllByLastLogin (st : Store) : List User :=
  st.rows.insertionSort loginOrder

/-! ## Tokens -/

/-- The call `jwt.sign({ userId }, secret, { expiresIn: "1h" })` at time
`now`. -/
def jwtSign (J : JwtLib) (userId : JsVal) (secret : String) (now : Nat) : String :=
  J.encode secret { userId := userId, iat := some now, exp := some (now + 3600) }

/-- The call `jwt.verify(token, secret)` at time `now`: the token is parsed and its
signature checked, then a token whose `exp` is not after the clock is
expired. -/
def jwtVerify (J : JwtLib) (token secret : String) (now : Nat) : Except JwtError Payload :=
  match J.decode token secret with
  | .error e => .error e
  | .ok p =>
    match p.exp with
    | none => .ok p
    | some exp => if now ≥ exp then .error .expired else .ok p

/-- The secret of the login route: `process.env.JWT_SECRET || "Nataraz"`. -/
def loginSecret (E : Env) : String :=
  match E.JWT_SECRET with
  | none => "Nataraz"
  | some s => if s == "" then "Nataraz" else s

/-! ## Middleware (`middleware.js`, `checkUserStatus`) -/

/-- The middleware `authenticateToken`: `.ok decoded` is `req.user = decoded;
next()`, `.error r` is the response sent instead. -/
def authenticateToken (E : Env) (now : Nat) (req : Request) : Except Response Payload :=
  match headerToken req.authorization with
  | none => .error (errorResponse 403 "Access denied. No token provided.")
  | some token =>
    if token == "" then .error (errorResponse 403 "Access denied. No token provided.")
    else
      match jwtVerify E.jwt token "Nataraz" now with
      | .ok decoded => .ok decoded
      | .error _ => .error (errorResponse 400 "Invalid token.")

/-- The middleware `checkUserStatus`: `.ok ()` is `next()`. -/
def checkUserStatus (E : Env) (st : Store) (o : Oracle) (user : Payload) : Except Response Unit :=
  if o.firstQueryFails then .error (errorResponse 500 "Database error")
  else
    match selectById E st user.userId with
    | [] => .error (errorResponse 404 "User not found")
    | u :: _ =>
      if u.status == "blocked" then .error (errorResponse 403 "User is blocked")
      else .ok ()

/-- The chain `authenticateToken, checkUserStatus` in front of every protected
handler: `.ok user` means that the handler is invoked with `req.user = user`. -/
def gate (E : Env) (st : Store) (o : Oracle) (req : Request) : Except Response Payload :=
  match authenticateToken E o.now req with
  | .error r => .error r
  | .ok user =>
    match checkUserStatus E st o user with
    | .error r => .error r
    | .ok _ => .ok user

/-! ## Route handlers (`server.js`) -/

/-- The handler of `POST /register`. -/
def register (E : Env) (st : Store) (o : Oracle) (req : Request) : Response × Store :=
  if falsy req.body.name || falsy req.body.email || falsy req.body.password then
    (errorResponse 400 "Please provide all required fields", st)
  else if o.firstQueryFails then (errorResponse 500 "Database error", st)
  else if (selectByEmail E st (req.body.email.getD "")).length > 0 then
    (errorResponse 400 "Email already exists", st)
  else if o.secondQueryFails then (errorResponse 500 "Error creating user", st)
  else
    (messageResponse 201 "User registered successfully",
      insertUser st (req.body.name.getD "") (req.body.email.getD "")
        (E.bcryptHash (req.body.password.getD "") o.salt))

/-- The handler of `POST /login`. -/
def login (E : Env) (st : Store) (o : Oracle) (req : Request) : Response × Store :=
  if falsy req.body.email || falsy req.body.password then
    (errorResponse 400 "Please provide both email and password", st)
  else if o.firstQueryFails then (errorResponse 500 "Database error", st)
  else
    match selectByEmail E st (req.body.email.getD "") with
    | [] => (errorResponse 400 "User not found", st)
    | user :: _ =>
      if user.status == "blocked" then
        (errorResponse 403 "You are blocked. Contact with the Admin!", st)
      else if !E.bcryptCompare (req.body.password.getD "") user.password then
        (errorResponse 400 "Incorrect password", st)
      else
        ({ status := 200, error := none, message := some "Login successful",
           token := some (jwtSign E.jwt (.num user.id) (loginSecret E) o.now),
           logout := false, users := none },
          if o.secondQueryFails then st else updateLastLogin st user.id o.now)

/-- The handler of `GET /users`, behind the gate. -/
def getUsersHandler (st : Store) (o : Oracle) : Response × Store :=
  if o.secondQueryFails then (errorResponse 500 "Database error", st)
  else
    ({ status := 200, error := none, message := none, token := none,
       logout := false, users := some (selectAllByLastLogin st) }, st)

/-- The handler of `POST /users/block`, behind the gate. -/
def blockHandler (E : Env) (st : Store) (o : Oracle) (user : Payload) (body : Body) :
    Response × Store :=
  match body.userIds with
  | none => (errorResponse 400 "No users selected", st)
  | some userIds =>
    if userIds.length == 0 then (errorResponse 400 "No users selected", st)
    else if o.secondQueryFails then (errorResponse 500 "Failed to block users", st)
    else if jsIncludes userIds user.userId then
      ({ status := 200, error := none,
         message := some "You have been blocked and logged out",
         token := none, logout := true, users := none },
        updateStatus E st userIds "blocked")
    else
      (messageResponse 200 "Users blocked successfully", updateStatus E st userIds "blocked")

/-- The handler of `POST /users/unblock`, behind the gate. -/
def unblockHandler (E : Env) (st : Store) (o : Oracle) (body : Body) : Response × Store :=
  match body.userIds with
  | none => (errorResponse 400 "No valid user IDs provided for unblocking", st)
  | some userIds =>
    if userIds.length == 0 then
      (errorResponse 400 "No valid user IDs provided for unblocking", st)
    else if o.secondQueryFails then (errorResponse 500 "Failed to unblock users", st)
    else (messageResponse 200 "Users unblocked successfully", updateStatus E st userIds "active")

/-- The handler of `POST /users/delete`, behind the gate. -/
def deleteHandler (E : Env) (st : Store) (o : Oracle) (body : Body) : Response × Store :=
  match body.userIds with
  | none => (errorResponse 400 "No users selected for deletion", st)
  | some userIds =>
    if userIds.length > 0 then
      if o.secondQueryFails then (errorResponse 500 "Error deleting users", st)
      else (messageResponse 200 "Users deleted successfully", deleteRows E st userIds)
    else (errorResponse 400 "No users selected for deletion", st)

/-- A route is protected when the gate stands in front of its handler. -/
def Route.isProtected : Route → Bool
  | .register => false
  | .login => false
  | _ => true

/-- The handler behind the gate on a protected route. -/
def protectedHandler (E : Env) (st : Store) (o : Oracle) (req : Request) (user : Payload) :
    Response × Store :=
  match req.route with
  | .block => blockHandler E st o user req.body
  | .unblock => unblockHandler E st o req.body
  | .delete => deleteHandler E st o req.body
  | _ => getUsersHandler st o

/-- The server: one request is routed and handled against the store. -/
def handle (E : Env) (st : Store) (o : Oracle) (req : Request) : Response × Store :=
  match req.route with
  | .register => register E st o req
  | .login => login E st o req
  | _ =>
    match gate E st o req with
    | .error r => (r, st)
    | .ok user => protectedHandler E st o req user

/-- The store after a sequence of requests handled one after the other. -/
def run (E : Env) (st : Store) : List (Oracle × Request) → Store
  | [] => st
  | (o, req) :: rest => run E (handle E st o req).2 rest

/-! ## A reference environment

A symbolic instance of the collaborators, used to evaluate the server on
concrete requests.  A token is the text `key.userId.iat.exp`; its signature
is valid under a key exactly when that key is its first field. -/

/-- The decimal digits of a natural number, most significant first. -/
def showNat (n : Nat) : List Char :=
  Nat.toDigits 10 n

/-- The number written by a non-empty list of decimal digits. -/
def readNat (cs : List Char) : Option Nat :=
  if cs.isEmpty then none
  else cs.foldl (fun acc c => acc.bind fun n =>
    if c.isDigit then some (10 * n + (c.toNat - 48)) else none) (some 0)

/-- The integer written by an optional minus sign and decimal digits. -/
def readInt (cs : List Char) : Option Int :=
  match cs with
  | '-' :: ds => (readNat ds).map fun n => -(n : Int)
  | ds => (readNat ds).map fun n => (n : Int)

/-- The text of an id inside a symbolic token. -/
def showVal : JsVal → List Char
  | .undefined => ['u']
  | .null => ['z']
  | .bool true => ['t']
  | .bool false => ['f']
  | .num n => if n < 0 then 'm' :: showNat n.natAbs else 'n' :: showNat n.natAbs
  | .str s => 's' :: s.data

/-- The id written by `showVal`. -/
def readVal : List Char → Option JsVal
  | ['u'] => some .undefined
  | ['z'] => some .null
  | ['t'] => some (.bool true)
  | ['f'] => some (.bool false)
  | 'n' :: ds => (readNat ds).map fun n => .num n
  | 'm' :: ds => (readNat ds).map fun n => .num (-(n : Int))
  | 's' :: cs => some (.str (String.mk cs))
  | _ => none

/-- The text of an optional time inside a symbolic token. -/
def showTime : Option Nat → List Char
  | none => ['x']
  | some n => showNat n

/-- The optional time written by `showTime`. -/
def readTime (cs : List Char) : Option (Option Nat) :=
  if cs = ['x'] then some none else (readNat cs).map some

/-- The symbolic token library. -/
def symbolicJwt : JwtLib where
  encode key p :=
    String.mk (key.data ++ '.' :: showVal p.userId ++ '.' :: showTime p.iat
      ++ '.' :: showTime p.exp)
  decode token key :=
    match jsSplit '.' token.data with
    | [k, u, i, e] =>
      match readVal u, readTime i, readTime e with
      | some userId, some iat, some exp =>
        if String.mk k = key then .ok { userId := userId, iat := iat, exp := exp }
        else .error .invalidSignature
      | _, _, _ => .error .malformed
    | _ => .error .malformed

/-- The reference environment: symbolic tokens, a symbolic digest, decimal
numerals as ids, exact comparison of emails. -/
def refEnv (secret : Option String) : Env where
  jwt := symbolicJwt
  bcryptHash password salt := String.mk (showNat salt ++ '$' :: password.data)
  bcryptCompare password digest :=
    match jsSplit '$' digest.data with
    | _ :: rest => rest == [password.data]
    | [] => false
  sqlNum s := readInt s.data
  emailEq a b := a == b
  JWT_SECRET := secret

/-! ## The block request of the front end (`script.js`) -/

/-- A checkbox of the user table: whether it is checked and its `data-id`
attribute. -/
structure Checkbox where
  checked : Bool
  dataId : String
  deriving DecidableEq, Repr

/-- The text of an integer in a template literal. -/
def showInt (n : Int) : String :=
  String.mk (if n < 0 then '-' :: showNat n.natAbs else showNat n.natAbs)

/-- The checkbox that `fetchUsers` renders for a row: its `data-id` is the
text of the id of the row. -/
def renderCheckbox (u : User) (checked : Bool) : Checkbox :=
  { checked := checked, dataId := showInt u.id }

/-- The function `getSelectedUsers`: the `data-id` attribute values, which are
strings, of the checked checkboxes. -/
def getSelectedUsers (boxes : List Checkbox) : List JsVal :=
  (boxes.filter fun b => b.checked).map fun b => .str b.dataId

/-- The click handler of the block button: a request is sent when at least
one checkbox is checked. -/
def blockClick (token : String) (boxes : List Checkbox) : Option Request :=
  if (getSelectedUsers boxes).length > 0 then
    some { route := .block, authorization := some ("Bearer " ++ token),
           body := { name := none, email := none, password := none,
                     userIds := some (getSelectedUsers boxes) } }
  else none

/-! ## Predicates used in the statements -/

/-- The response to a request without a token. -/
def noTokenResponse : Response :=
  errorResponse 403 "Access denied. No token provided."

/-- The response to a request whose token does not verify. -/
def invalidTokenResponse : Response :=
  errorResponse 400 "Invalid token."

/-- The ways in which one request can change the store: not at all, or by the
one mutating statement of its route, which on the three mutating protected
routes is issued only behind the gate and answered with status 200. -/
def Effect (E : Env) (st : Store) (o : Oracle) (req : Request) : Prop :=
  (handle E st o req).2 = st ∨
  (req.route = .register ∧
    ∃ name email digest, (handle E st o req).2 = insertUser st name email digest) ∨
  (req.route = .login ∧ ∃ id, (handle E st o req).2 = updateLastLogin st id o.now) ∨
  (req.route = .block ∧ (∃ user, gate E st o req = .ok user) ∧
    ∃ ids, req.body.userIds = some ids ∧ (handle E st o req).1.status = 200 ∧
      (handle E st o req).2 = updateStatus E st ids "blocked") ∨
  (req.route = .unblock ∧ (∃ user, gate E st o req = .ok user) ∧
    ∃ ids, req.body.userIds = some ids ∧ (handle E st o req).1.status = 200 ∧
      (handle E st o req).2 = updateStatus E st ids "active") ∨
  (req.route = .delete ∧ (∃ user, gate E st o req = .ok user) ∧
    ∃ ids, req.body.userIds = some ids ∧ (handle E st o req).1.status = 200 ∧
      (handle E st o req).2 = deleteRows E st ids)

/-- The relation between a row before a request and the same row after it:
the id, name, email and digest are kept; the status differs only after a block
or unblock request that passed the gate and whose `userIds` select the row;
`last_login` differs only after a login request. -/
def RowFrame (E : Env) (st : Store) (o : Oracle) (req : Request) (u u' : User) : Prop :=
  u'.id = u.id ∧ u'.name = u.name ∧ u'.email = u.email ∧ u'.password = u.password ∧
  (u'.status ≠ u.status →
    (req.route = .block ∨ req.route = .unblock) ∧ (∃ user, gate E st o req = .ok user) ∧
      ∃ ids, req.body.userIds = some ids ∧ sqlIn E ids u.id = true) ∧
  (u'.last_login ≠ u.last_login → req.route = .login)

/-- The ids of the store are below the next auto-increment id, so that an
inserted row never takes an id that is in use. -/
def IdsBelowNext (st : Store) : Prop :=
  ∀ u ∈ st.rows, u.id < st.nextId

instance (st : Store) : Decidable (IdsBelowNext st) := by
  unfold IdsBelowNext
  infer_instance

/-- Every row of the store with id `a` has status `blocked`. -/
def AllBlocked (a : Int) (st : Store) : Prop :=
  ∀ u ∈ st.rows, u.id = a → u.status = "blocked"

/-- The store holds a row with id `a`. -/
def Present (a : Int) (st : Store) : Prop :=
  ∃ u ∈ st.rows, u.id = a

/-- The request is on the given route, its `userIds` select the id `a`, and it
is answered with status 200 in the store `st`. -/
def Succeeds (E : Env) (a : Int) (route : Route) (st : Store) (ev : Oracle × Request) : Prop :=
  ev.2.route = route ∧
  (∃ ids, ev.2.body.userIds = some ids ∧ sqlIn E ids a = true) ∧
  (handle E st ev.1 ev.2).1.status = 200

/-- No request of the sequence, handled in turn from the store `st`, is a
request on the given route that selects the id `a` and is answered 200. -/
def Never (E : Env) (a : Int) (route : Route) : Store → List (Oracle × Request) → Prop
  | _, [] => True
  | st, ev :: rest =>
    ¬ Succeeds E a route st ev ∧ Never E a route (handle E st ev.1 ev.2).2 rest

/-! ## Reference data -/

/-- An oracle under which every database statement succeeds. -/
def calm (now : Nat) : Oracle :=
  { now := now, firstQueryFails := false, secondQueryFails := false, salt := 0 }

/-- An oracle under which the first database statement of the request fails. -/
def firstFails (now : Nat) : Oracle :=
  { now := now, firstQueryFails := true, secondQueryFails := false, salt := 0 }

/-- A body without fields. -/
def emptyBody : Body :=
  { name := none, email := none, password := none, userIds := none }

/-- A request for the list of users with the given `Authorization` header. -/
def listRequest (authorization : Option String) : Request :=
  { route := .getUsers, authorization := authorization, body := emptyBody }

/-- The account of Ann, active, with the digest of the password `p1`. -/
def ann : User :=
  { id := 1, name := "Ann", email := "a@x.com", password := "0$p1", status := "active",
    last_login := none }

/-- The account of Bob, active, with the digest of the password `p2`. -/
def bob : User :=
  { id := 2, name := "Bob", email := "b@x.com", password := "0$p2", status := "active",
    last_login := none }

/-- A store holding Ann and Bob. -/
def twoUsers : Store :=
  { rows := [ann, bob], nextId := 3 }

/-- The claims of the token that the login route issues to Ann at time 0. -/
def annPayload : Payload :=
  { userId := .num 1, iat := some 0, exp := some 3600 }

/-- A request on a route behind the gate, carrying the token issued to Ann at
time 0. -/
def annRequest (route : Route) (userIds : Option (List JsVal)) : Request :=
  { route := route, authorization := some "Bearer Nataraz.n1.0.3600",
    body := { name := none, email := none, password := none, userIds := userIds } }

/-- A request on a route behind the gate, carrying the token issued to Bob at
time 0. -/
def bobRequest (route : Route) (userIds : Option (List JsVal)) : Request :=
  { route := route, authorization := some "Bearer Nataraz.n2.0.3600",
    body := { name := none, email := none, password := none, userIds := userIds } }

/-- A login request. -/
def loginRequest (email password : String) : Request :=
  { route := .login, authorization := none,
    body := { name := none, email := some email, password := some password,
              userIds := none } }

/-- A registration request. -/
def registerRequest (name email password : String) : Request :=
  { route := .register, authorization := none,
    body := { name := some name, email := some email, password := some password,
              userIds := none } }

/-- The store after Bob has blocked Ann at time 10. -/
def annBlocked : Store :=
  (handle (refEnv none) twoUsers (calm 10) (bobRequest .block (some [.num 1]))).2

/-! ## Splitting the `Authorization` header -/

theorem jsSplit_ne_nil (sep : Char) (cs : List Char) : jsSplit sep cs ≠ [] := by
  cases cs with
  | nil => simp [jsSplit]
  | cons c cs =>
    unfold jsSplit
    split
    · simp
    · split <;> simp

theorem jsSplit_of_not_mem (sep : Char) (cs : List Char) (h : sep ∉ cs) :
    jsSplit sep cs = [cs] := by
  induction cs with
  | nil => rfl
  | cons c cs ih =>
    have hc : c ≠ sep := fun e => h (by simp [e])
    have hcs : sep ∉ cs := fun m => h (by simp [m])
    simp [jsSplit, hc, ih hcs]

theorem jsSplit_append_sep (sep : Char) (pre rest : List Char) (h : sep ∉ pre) :
    jsSplit sep (pre ++ sep :: rest) = pre :: jsSplit sep rest := by
  induction pre with
  | nil => simp [jsSplit]
  | cons c cs ih =>
    have hc : c ≠ sep := fun e => h (by simp [e])
    have hcs : sep ∉ cs := fun m => h (by simp [m])
    simp [jsSplit, hc, ih hcs]

theorem first_occurrence (sep : Char) (cs : List Char) (h : sep ∈ cs) :
    ∃ pre rest, cs = pre ++ sep :: rest ∧ sep ∉ pre := by
  induction cs with
  | nil => simp at h
  | cons c cs ih =>
    by_cases hc : c = sep
    · exact ⟨[], cs, by simp [hc], by simp⟩
    · have hcs : sep ∈ cs := by
        rcases List.mem_cons.mp h with e1 | e1
        · exact absurd e1.symm hc
        · exact e1
      obtain ⟨p2, r2, e2, hp2⟩ := ih hcs
      refine ⟨c :: p2, r2, by simp [e2], ?_⟩
      intro m
      rcases List.mem_cons.mp m with e3 | e3
      · exact hc e3.symm
      · exact hp2 e3

theorem jsSplit_second_of_mem (sep : Char) (cs : List Char) (h : sep ∈ cs) :
    ∃ t, (jsSplit sep cs)[1]? = some t := by
  obtain ⟨pre, rest, hsplit, hpre⟩ := first_occurrence sep cs h
  subst hsplit
  rw [jsSplit_append_sep sep pre rest hpre]
  cases hr : jsSplit sep rest with
  | nil => exact absurd hr (jsSplit_ne_nil sep rest)
  | cons t ts => exact ⟨t, by simp⟩

/-! ## The token check -/

theorem authenticateToken_of_token (E : Env) (now : Nat) (req : Request) (token : String)
    (h : headerToken req.authorization = some token) (hne : token ≠ "") :
    authenticateToken E now req =
      match jwtVerify E.jwt token "Nataraz" now with
      | .ok decoded => .ok decoded
      | .error _ => .error invalidTokenResponse := by
  simp [authenticateToken, h, hne, invalidTokenResponse]

theorem authenticateToken_ok_iff (E : Env) (now : Nat) (req : Request) (p : Payload) :
    authenticateToken E now req = .ok p ↔
      ∃ token, headerToken req.authorization = some token ∧ token ≠ "" ∧
        jwtVerify E.jwt token "Nataraz" now = .ok p := by
  unfold authenticateToken
  cases ht : headerToken req.authorization with
  | none => simp
  | some token =>
    by_cases hne : token = ""
    · simp [hne]
    · cases hv : jwtVerify E.jwt token "Nataraz" now with
      | error e => simp [hne, hv]
      | ok d => simp [hne, hv]

/-- C10. The token is the second element of the `Authorization` header split
on the space character.  A request whose header is absent, has no space, or
has an empty second element is answered 403 `Access denied. No token
provided.` whatever the token library would say; in every other case the
answer is the outcome of verifying exactly that second element; and the
first element (the scheme word) has no influence. -/
theorem token_extraction (E : Env) (now : Nat) (req : Request) :
    headerToken req.authorization
      = req.authorization.bind (fun h => ((jsSplit ' ' h.data).map String.mk)[1]?) ∧
    (req.authorization = none → authenticateToken E now req = .error noTokenResponse) ∧
    (∀ h, req.authorization = some h → ' ' ∉ h.data →
      authenticateToken E now req = .error noTokenResponse) ∧
    (∀ h, req.authorization = some h → (jsSplit ' ' h.data)[1]? = some [] →
      authenticateToken E now req = .error noTokenResponse) ∧
    (∀ h, req.authorization = some h → ' ' ∈ h.data →
      ∃ t, (jsSplit ' ' h.data)[1]? = some t ∧
        (t ≠ [] → authenticateToken E now req =
          match jwtVerify E.jwt (String.mk t) "Nataraz" now with
          | .ok decoded => .ok decoded
          | .error _ => .error invalidTokenResponse)) ∧
    (∀ scheme rest : List Char, ' ' ∉ scheme →
      authenticateToken E now
          { req with authorization := some (String.mk (scheme ++ ' ' :: rest)) }
        = authenticateToken E now
          { req with authorization := some (String.mk ("Bearer".data ++ ' ' :: rest)) }) := by
  refine ⟨?_, ?_, ?_, ?_, ?_, ?_⟩
  · cases req.authorization <;> rfl
  · intro h
    simp [authenticateToken, headerToken, h, noTokenResponse]
  · intro h hh hsp
    simp [authenticateToken, headerToken, hh, jsSplit_of_not_mem ' ' h.data hsp,
      noTokenResponse]
  · intro h hh h2
    have : headerToken req.authorization = some "" := by
      simp only [headerToken, hh, List.getElem?_map, h2]
      rfl
    simp [authenticateToken, this, noTokenResponse]
  · intro h hh hsp
    obtain ⟨t, ht⟩ := jsSplit_second_of_mem ' ' h.data hsp
    refine ⟨t, ht, fun hne => ?_⟩
    have h1 : headerToken req.authorization = some (String.mk t) := by
      simp [headerToken, hh, List.getElem?_map, ht]
    have h2 : String.mk t ≠ "" := by
      intro e
      apply hne
      have := congrArg String.data e
      simpa using this
    exact authenticateToken_of_token E now req _ h1 h2
  · intro scheme rest hs
    have hb : ' ' ∉ "Bearer".data := by decide
    have h1 : headerToken (some (String.mk (scheme ++ ' ' :: rest)))
        = headerToken (some (String.mk ("Bearer".data ++ ' ' :: rest))) := by
      simp only [headerToken, jsSplit_append_sep ' ' scheme rest hs,
        jsSplit_append_sep ' ' "Bearer".data rest hb]
      simp
    simp only [authenticateToken, h1]

/-- C10 at the header `Token abc`: its second element `abc` is what is
verified. -/
theorem token_extraction_witness :
    ∃ t, (jsSplit ' ' "Token abc".data)[1]? = some t ∧
      (t ≠ [] → authenticateToken (refEnv none) 0 (listRequest (some "Token abc")) =
        match jwtVerify (refEnv none).jwt (String.mk t) "Nataraz" 0 with
        | .ok decoded => .ok decoded
        | .error _ => .error invalidTokenResponse) :=
  (token_extraction (refEnv none) 0 (listRequest (some "Token abc"))).2.2.2.2.1
    "Token abc" rfl (by decide)

/-- C4, as stated, fails: a token that is present and does not verify is
answered with status 400, not 403. -/
theorem invalid_token_not_403 :
    ¬ ∀ (E : Env) (now : Nat) (req : Request) (token : String) (e : JwtError),
      headerToken req.authorization = some token → token ≠ "" →
      jwtVerify E.jwt token "Nataraz" now = .error e →
      ∃ r, authenticateToken E now req = .error r ∧ r.status = 403 := by
  intro h
  obtain ⟨r, hr, hs⟩ := h (refEnv none) 0 (listRequest (some "Bearer garbage")) "garbage"
    .malformed (by decide) (by decide) (by decide)
  have h400 : authenticateToken (refEnv none) 0 (listRequest (some "Bearer garbage"))
      = .error invalidTokenResponse := by decide
  rw [h400] at hr
  cases hr
  revert hs
  decide

/-- C4, amended. A token that is present and fails verification, for
whichever reason, is answered with status 400 and the one error `Invalid
token.`, which differs from the answer to a missing token. -/
theorem invalid_token_rejection (E : Env) (now : Nat) (req : Request) (token : String)
    (e : JwtError) (ht : headerToken req.authorization = some token) (hne : token ≠ "")
    (hv : jwtVerify E.jwt token "Nataraz" now = .error e) :
    authenticateToken E now req = .error invalidTokenResponse ∧
    invalidTokenResponse.status = 400 ∧
    invalidTokenResponse.error = some "Invalid token." ∧
    invalidTokenResponse ≠ noTokenResponse := by
  refine ⟨?_, rfl, rfl, by decide⟩
  rw [authenticateToken_of_token E now req token ht hne, hv]

/-- C4, amended, at a malformed token, at a token signed under another key and
at an expired token: the three answers are the same. -/
theorem invalid_token_rejection_witness :
    jwtVerify (refEnv none).jwt "garbage" "Nataraz" 0 = .error .malformed ∧
    jwtVerify (refEnv none).jwt "other.n1.0.3600" "Nataraz" 0 = .error .invalidSignature ∧
    jwtVerify (refEnv none).jwt "Nataraz.n1.0.3600" "Nataraz" 3600 = .error .expired ∧
    authenticateToken (refEnv none) 0 (listRequest (some "Bearer garbage"))
      = .error invalidTokenResponse ∧
    authenticateToken (refEnv none) 0 (listRequest (some "Bearer other.n1.0.3600"))
      = .error invalidTokenResponse ∧
    authenticateToken (refEnv none) 3600 (listRequest (some "Bearer Nataraz.n1.0.3600"))
      = .error invalidTokenResponse :=
  ⟨by decide, by decide, by decide,
    (invalid_token_rejection (refEnv none) 0 (listRequest (some "Bearer garbage")) "garbage"
      .malformed (by decide) (by decide) (by decide)).1,
    (invalid_token_rejection (refEnv none) 0 (listRequest (some "Bearer other.n1.0.3600"))
      "other.n1.0.3600" .invalidSignature (by decide) (by decide) (by decide)).1,
    (invalid_token_rejection (refEnv none) 3600 (listRequest (some "Bearer Nataraz.n1.0.3600"))
      "Nataraz.n1.0.3600" .expired (by decide) (by decide) (by decide)).1⟩

/-! ## The gate -/

theorem checkUserStatus_ok_iff (E : Env) (st : Store) (o : Oracle) (user : Payload)
    (hq : o.firstQueryFails = false) :
    checkUserStatus E st o user = .ok () ↔
      ∃ u rest, selectById E st user.userId = u :: rest ∧ u.status ≠ "blocked" := by
  unfold checkUserStatus
  cases hs : selectById E st user.userId with
  | nil => simp [hq]
  | cons u rest =>
    by_cases hb : u.status = "blocked" <;> simp [hq, hb]

theorem gate_ok_iff (E : Env) (st : Store) (o : Oracle) (req : Request) (p : Payload) :
    gate E st o req = .ok p ↔
      authenticateToken E o.now req = .ok p ∧ checkUserStatus E st o p = .ok () := by
  unfold gate
  cases ha : authenticateToken E o.now req with
  | error r => simp
  | ok user =>
    cases hc : checkUserStatus E st o user with
    | error r =>
      simp only [hc, reduceCtorEq, Except.ok.injEq, false_iff, not_and]
      intro e
      subst e
      simp [hc]
    | ok v =>
      simp only [hc, Except.ok.injEq]
      constructor
      · intro e
        subst e
        exact ⟨rfl, hc⟩
      · intro e
        exact e.1

theorem handle_of_gate_ok (E : Env) (st : Store) (o : Oracle) (req : Request) (p : Payload)
    (hr : req.route.isProtected = true) (hg : gate E st o req = .ok p) :
    handle E st o req = protectedHandler E st o req p := by
  unfold handle
  cases h : req.route <;> simp_all [Route.isProtected]

theorem handle_of_gate_error (E : Env) (st : Store) (o : Oracle) (req : Request) (r : Response)
    (hr : req.route.isProtected = true) (hg : gate E st o req = .error r) :
    handle E st o req = (r, st) := by
  unfold handle
  cases h : req.route <;> simp_all [Route.isProtected]

/-- C2. On a protected route and when the status lookup does not fail, the
handler is invoked with `req.user = p` exactly when the request carries a
token that verifies to `p`, the `userId` of `p` selects an account, and the
status of that account is not `blocked`; otherwise the response is the one of
the gate and the store is untouched; and a verified token whose `userId`
selects no account is answered 404 `User not found`. -/
theorem gate_sound_complete (E : Env) (st : Store) (o : Oracle) (req : Request) (p : Payload)
    (hr : req.route.isProtected = true) (hq : o.firstQueryFails = false) :
    (gate E st o req = .ok p ↔
      ∃ token, headerToken req.authorization = some token ∧ token ≠ "" ∧
        jwtVerify E.jwt token "Nataraz" o.now = .ok p ∧
        ∃ u rest, selectById E st p.userId = u :: rest ∧ u.status ≠ "blocked") ∧
    (gate E st o req = .ok p → handle E st o req = protectedHandler E st o req p) ∧
    (∀ r, gate E st o req = .error r → handle E st o req = (r, st)) ∧
    (authenticateToken E o.now req = .ok p → selectById E st p.userId = [] →
      gate E st o req = .error (errorResponse 404 "User not found")) := by
  refine ⟨?_, handle_of_gate_ok E st o req p hr, fun r => handle_of_gate_error E st o req r hr, ?_⟩
  · rw [gate_ok_iff, authenticateToken_ok_iff, checkUserStatus_ok_iff E st o p hq]
    constructor
    · rintro ⟨⟨token, h1, h2, h3⟩, h4⟩
      exact ⟨token, h1, h2, h3, h4⟩
    · rintro ⟨token, h1, h2, h3, h4⟩
      exact ⟨⟨token, h1, h2, h3⟩, h4⟩
  · intro ha hs
    simp [gate, ha, checkUserStatus, hq, hs]

/-- C2 at the request of Ann for the list of users, ten seconds after her
login. -/
theorem gate_sound_complete_witness :
    (gate (refEnv none) twoUsers (calm 10) (listRequest (some "Bearer Nataraz.n1.0.3600"))
        = .ok annPayload ↔
      ∃ token, headerToken (some "Bearer Nataraz.n1.0.3600") = some token ∧ token ≠ "" ∧
        jwtVerify (refEnv none).jwt token "Nataraz" 10 = .ok annPayload ∧
        ∃ u rest, selectById (refEnv none) twoUsers annPayload.userId = u :: rest ∧
          u.status ≠ "blocked") ∧
    gate (refEnv none) twoUsers (calm 10) (listRequest (some "Bearer Nataraz.n1.0.3600"))
      = .ok annPayload :=
  ⟨(gate_sound_complete (refEnv none) twoUsers (calm 10)
      (listRequest (some "Bearer Nataraz.n1.0.3600")) annPayload rfl rfl).1, by decide⟩

/-! ## Rejections that leave the store untouched -/

/-- C6. On each of the block, unblock and delete routes, a request that passes
the gate and whose `userIds` is absent or the empty array is answered with
status 400, and the store after the request is the store before it. -/
theorem empty_target_rejected (E : Env) (st : Store) (o : Oracle) (req : Request)
    (user : Payload)
    (hroute : req.route = .block ∨ req.route = .unblock ∨ req.route = .delete)
    (hg : gate E st o req = .ok user)
    (he : req.body.userIds = none ∨ req.body.userIds = some []) :
    (handle E st o req).1.status = 400 ∧ (handle E st o req).2 = st := by
  have hp : req.route.isProtected = true := by
    rcases hroute with h | h | h <;> simp [h, Route.isProtected]
  rw [handle_of_gate_ok E st o req user hp hg]
  rcases hroute with h | h | h <;> rcases he with e | e <;>
    simp [protectedHandler, h, blockHandler, unblockHandler, deleteHandler, e, errorResponse]

/-- C6 at a block request of Ann with an empty array. -/
theorem empty_target_rejected_witness :
    (handle (refEnv none) twoUsers (calm 10) (annRequest .block (some []))).1.status = 400 ∧
    (handle (refEnv none) twoUsers (calm 10) (annRequest .block (some []))).2 = twoUsers :=
  empty_target_rejected (refEnv none) twoUsers (calm 10) (annRequest .block (some []))
    annPayload (Or.inl rfl) (by decide) (Or.inr rfl)

/-- C7. A login request whose email selects an account and whose password does
not verify against the digest of that account is answered without a token and
with a status other than 200, and the store, in particular every
`last_login`, is unchanged. -/
theorem wrong_password_rejected (E : Env) (st : Store) (o : Oracle) (req : Request)
    (email password : String) (u : User) (rest : List User)
    (hroute : req.route = .login)
    (he : req.body.email = some email) (hp : req.body.password = some password)
    (hs : selectByEmail E st email = u :: rest)
    (hc : E.bcryptCompare password u.password = false) :
    (handle E st o req).1.token = none ∧
    (handle E st o req).1.status ≠ 200 ∧
    (handle E st o req).2 = st ∧
    (handle E st o req).2.rows.map (fun a => a.last_login)
      = st.rows.map (fun a => a.last_login) := by
  have key : (handle E st o req).1.token = none ∧ (handle E st o req).1.status ≠ 200 ∧
      (handle E st o req).2 = st := by
    simp only [handle, hroute, login, he, hp, Option.getD_some, hs, hc]
    by_cases h1 : (falsy (some email) || falsy (some password)) = true
    · simp [h1, errorResponse]
    · by_cases h2 : o.firstQueryFails = true
      · simp [h1, h2, errorResponse]
      · by_cases h3 : (u.status == "blocked") = true
        · simp [h1, h2, h3, errorResponse]
        · simp [h1, h2, h3, errorResponse]
  exact ⟨key.1, key.2.1, key.2.2, by rw [key.2.2]⟩

/-- C7 at a login of Ann with the password of Bob. -/
theorem wrong_password_rejected_witness :
    (handle (refEnv none) twoUsers (calm 0) (loginRequest "a@x.com" "p2")).1.token = none ∧
    (handle (refEnv none) twoUsers (calm 0) (loginRequest "a@x.com" "p2")).1.status ≠ 200 ∧
    (handle (refEnv none) twoUsers (calm 0) (loginRequest "a@x.com" "p2")).2 = twoUsers ∧
    (handle (refEnv none) twoUsers (calm 0) (loginRequest "a@x.com" "p2")).2.rows.map
        (fun a => a.last_login) = twoUsers.rows.map (fun a => a.last_login) :=
  wrong_password_rejected (refEnv none) twoUsers (calm 0) (loginRequest "a@x.com" "p2")
    "a@x.com" "p2" ann [] rfl rfl rfl (by decide) (by decide)

/-- C8, as stated, fails: when the lookup of the email reports an error, a
registration with the email of an existing account is answered 500 `Database
error`, not 400 `Email already exists`. -/
theorem duplicate_email_not_always_400 :
    ¬ ∀ (E : Env) (st : Store) (o : Oracle) (req : Request) (name email password : String),
      req.route = .register →
      req.body.name = some name → req.body.email = some email →
      req.body.password = some password →
      name ≠ "" → email ≠ "" → password ≠ "" →
      (∀ a, E.emailEq a a = true) →
      (∃ u ∈ st.rows, u.email = email) →
      (handle E st o req).1 = errorResponse 400 "Email already exists" := by
  intro h
  have h1 := h (refEnv none) twoUsers (firstFails 0) (registerRequest "Eve" "a@x.com" "p3")
    "Eve" "a@x.com" "p3" rfl rfl rfl rfl (by decide) (by decide) (by decide)
    (by intro a; simp [refEnv]) ⟨ann, by decide, rfl⟩
  have h2 : (handle (refEnv none) twoUsers (firstFails 0)
      (registerRequest "Eve" "a@x.com" "p3")).1 = errorResponse 500 "Database error" := by
    decide
  rw [h2] at h1
  revert h1
  decide

/-- C8, amended. When the lookup of the email does not fail, a registration
with non-empty name, email and password whose email is the email of an account
in the store is answered 400 `Email already exists` and the store is
unchanged. -/
theorem duplicate_email_rejected (E : Env) (st : Store) (o : Oracle) (req : Request)
    (name email password : String)
    (hroute : req.route = .register)
    (hn : req.body.name = some name) (he : req.body.email = some email)
    (hp : req.body.password = some password)
    (hn0 : name ≠ "") (he0 : email ≠ "") (hp0 : password ≠ "")
    (hrefl : ∀ a, E.emailEq a a = true)
    (hdup : ∃ u ∈ st.rows, u.email = email)
    (hq : o.firstQueryFails = false) :
    handle E st o req = (errorResponse 400 "Email already exists", st) := by
  obtain ⟨u, hu, hue⟩ := hdup
  have hmem : u ∈ selectByEmail E st email := by
    simp [selectByEmail, List.mem_filter, hu, hue, hrefl]
  have hlen : (selectByEmail E st email).length > 0 := List.length_pos_of_mem hmem
  simp [handle, hroute, register, hn, he, hp, falsy, hn0, he0, hp0, hq, hlen]

/-- C8, amended, at a registration with the email of Ann. -/
theorem duplicate_email_rejected_witness :
    handle (refEnv none) twoUsers (calm 0) (registerRequest "Eve" "a@x.com" "p3")
      = (errorResponse 400 "Email already exists", twoUsers) :=
  duplicate_email_rejected (refEnv none) twoUsers (calm 0)
    (registerRequest "Eve" "a@x.com" "p3") "Eve" "a@x.com" "p3" rfl rfl rfl rfl
    (by decide) (by decide) (by decide) (by intro a; simp [refEnv]) ⟨ann, by decide, rfl⟩ rfl

/-! ## The effect of a request on the store -/

theorem register_effect (E : Env) (st : Store) (o : Oracle) (req : Request) :
    (register E st o req).2 = st ∨
      ∃ name email digest, (register E st o req).2 = insertUser st name email digest := by
  unfold register
  split
  · exact Or.inl rfl
  · split
    · exact Or.inl rfl
    · split
      · exact Or.inl rfl
      · split
        · exact Or.inl rfl
        · exact Or.inr ⟨_, _, _, rfl⟩

theorem login_effect (E : Env) (st : Store) (o : Oracle) (req : Request) :
    (login E st o req).2 = st ∨ ∃ id, (login E st o req).2 = updateLastLogin st id o.now := by
  unfold login
  split
  · exact Or.inl rfl
  · split
    · exact Or.inl rfl
    · split
      · exact Or.inl rfl
      · split
        · exact Or.inl rfl
        · split
          · exact Or.inl rfl
          · split
            · exact Or.inl rfl
            · exact Or.inr ⟨_, rfl⟩

theorem blockHandler_effect (E : Env) (st : Store) (o : Oracle) (user : Payload) (body : Body) :
    (blockHandler E st o user body).2 = st ∨
      ∃ ids, body.userIds = some ids ∧ (blockHandler E st o user body).1.status = 200 ∧
        (blockHandler E st o user body).2 = updateStatus E st ids "blocked" := by
  unfold blockHandler
  cases h : body.userIds with
  | none => exact Or.inl rfl
  | some ids =>
    simp only
    split
    · exact Or.inl rfl
    · split
      · exact Or.inl rfl
      · split
        · exact Or.inr ⟨ids, rfl, rfl, rfl⟩
        · exact Or.inr ⟨ids, rfl, rfl, rfl⟩

theorem unblockHandler_effect (E : Env) (st : Store) (o : Oracle) (body : Body) :
    (unblockHandler E st o body).2 = st ∨
      ∃ ids, body.userIds = some ids ∧ (unblockHandler E st o body).1.status = 200 ∧
        (unblockHandler E st o body).2 = updateStatus E st ids "active" := by
  unfold unblockHandler
  cases h : body.userIds with
  | none => exact Or.inl rfl
  | some ids =>
    simp only
    split
    · exact Or.inl rfl
    · split
      · exact Or.inl rfl
      · exact Or.inr ⟨ids, rfl, rfl, rfl⟩

theorem deleteHandler_effect (E : Env) (st : Store) (o : Oracle) (body : Body) :
    (deleteHandler E st o body).2 = st ∨
      ∃ ids, body.userIds = some ids ∧ (deleteHandler E st o body).1.status = 200 ∧
        (deleteHandler E st o body).2 = deleteRows E st ids := by
  unfold deleteHandler
  cases h : body.userIds with
  | none => exact Or.inl rfl
  | some ids =>
    simp only
    split
    · split
      · exact Or.inl rfl
      · exact Or.inr ⟨ids, rfl, rfl, rfl⟩
    · exact Or.inl rfl

theorem getUsersHandler_effect (st : Store) (o : Oracle) : (getUsersHandler st o).2 = st := by
  unfold getUsersHandler
  split <;> rfl

theorem handle_effect (E : Env) (st : Store) (o : Oracle) (req : Request) :
    Effect E st o req := by
  unfold Effect
  cases hr : req.route with
  | register =>
    have h : handle E st o req = register E st o req := by simp [handle, hr]
    rcases register_effect E st o req with e | e
    · exact Or.inl (by rw [h]; exact e)
    · exact Or.inr (Or.inl ⟨rfl, by rw [h]; exact e⟩)
  | login =>
    have h : handle E st o req = login E st o req := by simp [handle, hr]
    rcases login_effect E st o req with e | e
    · exact Or.inl (by rw [h]; exact e)
    · exact Or.inr (Or.inr (Or.inl ⟨rfl, by rw [h]; exact e⟩))
  | getUsers =>
    have hp : req.route.isProtected = true := by simp [hr, Route.isProtected]
    cases hg : gate E st o req with
    | error r => exact Or.inl (by rw [handle_of_gate_error E st o req r hp hg])
    | ok user =>
      refine Or.inl ?_
      rw [handle_of_gate_ok E st o req user hp hg]
      simp [protectedHandler, hr, getUsersHandler_effect]
  | block =>
    have hp : req.route.isProtected = true := by simp [hr, Route.isProtected]
    cases hg : gate E st o req with
    | error r => exact Or.inl (by rw [handle_of_gate_error E st o req r hp hg])
    | ok user =>
      have h : handle E st o req = blockHandler E st o user req.body := by
        rw [handle_of_gate_ok E st o req user hp hg]
        simp [protectedHandler, hr]
      rw [h]
      rcases blockHandler_effect E st o user req.body with e | e
      · exact Or.inl e
      · exact Or.inr (Or.inr (Or.inr (Or.inl ⟨rfl, ⟨user, rfl⟩, e⟩)))
  | unblock =>
    have hp : req.route.isProtected = true := by simp [hr, Route.isProtected]
    cases hg : gate E st o req with
    | error r => exact Or.inl (by rw [handle_of_gate_error E st o req r hp hg])
    | ok user =>
      have h : handle E st o req = unblockHandler E st o req.body := by
        rw [handle_of_gate_ok E st o req user hp hg]
        simp [protectedHandler, hr]
      rw [h]
      rcases unblockHandler_effect E st o req.body with e | e
      · exact Or.inl e
      · exact Or.inr (Or.inr (Or.inr (Or.inr (Or.inl ⟨rfl, ⟨user, rfl⟩, e⟩))))
  | delete =>
    have hp : req.route.isProtected = true := by simp [hr, Route.isProtected]
    cases hg : gate E st o req with
    | error r => exact Or.inl (by rw [handle_of_gate_error E st o req r hp hg])
    | ok user =>
      have h : handle E st o req = deleteHandler E st o req.body := by
        rw [handle_of_gate_ok E st o req user hp hg]
        simp [protectedHandler, hr]
      rw [h]
      rcases deleteHandler_effect E st o req.body with e | e
      · exact Or.inl e
      · exact Or.inr (Or.inr (Or.inr (Or.inr (Or.inr ⟨rfl, ⟨user, rfl⟩, e⟩))))

/-! ## The status frame -/

theorem rowFrame_refl (E : Env) (st : Store) (o : Oracle) (req : Request) (u : User) :
    RowFrame E st o req u u :=
  ⟨rfl, rfl, rfl, rfl, fun h => absurd rfl h, fun h => absurd rfl h⟩

theorem frame_of_unchanged (E : Env) (st : Store) (o : Oracle) (req : Request) (rows : List User)
    (h : rows = st.rows) :
    ∃ (f : User → Option User) (extra : List User),
      rows = st.rows.filterMap f ++ extra ∧
      (extra ≠ [] → req.route = .register) ∧
      (∀ u, f u = none → req.route = .delete) ∧
      ∀ u u', f u = some u' → RowFrame E st o req u u' := by
  refine ⟨some, [], by simp [h], fun h => absurd rfl h, fun u hu => by simp at hu, ?_⟩
  intro u u' hu
  cases hu
  exact rowFrame_refl E st o req u

theorem frame_of_map (E : Env) (st : Store) (o : Oracle) (req : Request) (g : User → User)
    (hg : ∀ u, RowFrame E st o req u (g u)) :
    ∃ (f : User → Option User) (extra : List User),
      st.rows.map g = st.rows.filterMap f ++ extra ∧
      (extra ≠ [] → req.route = .register) ∧
      (∀ u, f u = none → req.route = .delete) ∧
      ∀ u u', f u = some u' → RowFrame E st o req u u' := by
  refine ⟨fun u => some (g u), [], ?_, fun h => absurd rfl h, fun u hu => by simp at hu, ?_⟩
  · rw [List.append_nil]
    exact (congrFun (List.filterMap_eq_map g) st.rows).symm
  · intro u u' hu
    cases hu
    exact hg u

/-- C9. The rows after a request are the rows before it, each kept or
dropped and each kept row related to its former self by `RowFrame`, followed
by the rows the request inserted.  Rows are inserted only by a registration
and dropped only by a delete; the status of a kept row changes only by a
block or unblock request that passed the gate and whose `userIds` select the
row; no request changes the id, name, email or digest of a kept row, and only
a login changes its `last_login`. -/
theorem status_frame (E : Env) (st : Store) (o : Oracle) (req : Request) :
    ∃ (f : User → Option User) (extra : List User),
      (handle E st o req).2.rows = st.rows.filterMap f ++ extra ∧
      (extra ≠ [] → req.route = .register) ∧
      (∀ u, f u = none → req.route = .delete) ∧
      ∀ u u', f u = some u' → RowFrame E st o req u u' := by
  rcases handle_effect E st o req with
    h | ⟨hr, n, e, d, h⟩ | ⟨hr, id, h⟩ | ⟨hr, hgate, ids, hb, -, h⟩ | ⟨hr, hgate, ids, hb, -, h⟩
      | ⟨hr, -, ids, -, -, h⟩
  · exact frame_of_unchanged E st o req _ (by rw [h])
  · refine ⟨some, [newRow st n e d], ?_, fun _ => hr, fun u hu => by simp at hu, ?_⟩
    · rw [h]
      simp [insertUser]
    · intro u u' hu
      cases hu
      exact rowFrame_refl E st o req u
  · rw [h]
    refine frame_of_map E st o req _ ?_
    intro u
    by_cases hid : (u.id == id) = true
    · simp only [hid, if_true]
      exact ⟨rfl, rfl, rfl, rfl, fun hne => absurd rfl hne, fun _ => hr⟩
    · simp only [hid]
      exact rowFrame_refl E st o req u
  · rw [h]
    refine frame_of_map E st o req _ ?_
    intro u
    by_cases hin : sqlIn E ids u.id = true
    · simp only [hin, if_true]
      exact ⟨rfl, rfl, rfl, rfl, fun _ => ⟨Or.inl hr, hgate, ids, hb, hin⟩,
        fun hne => absurd rfl hne⟩
    · simp only [hin]
      exact rowFrame_refl E st o req u
  · rw [h]
    refine frame_of_map E st o req _ ?_
    intro u
    by_cases hin : sqlIn E ids u.id = true
    · simp only [hin, if_true]
      exact ⟨rfl, rfl, rfl, rfl, fun _ => ⟨Or.inr hr, hgate, ids, hb, hin⟩,
        fun hne => absurd rfl hne⟩
    · simp only [hin]
      exact rowFrame_refl E st o req u
  · refine ⟨Option.guard fun u => (!sqlIn E ids u.id) = true, [], ?_, fun h => absurd rfl h,
      fun _ _ => hr, ?_⟩
    · rw [h, List.append_nil]
      simp only [deleteRows]
      exact (congrFun (List.filterMap_eq_filter _) st.rows).symm
    · intro u u' hu
      have : u = u' := by
        simp only [Option.guard] at hu
        split at hu
        · exact Option.some.inj hu
        · cases hu
      subst this
      exact rowFrame_refl E st o req u

/-! ## The status recheck -/

theorem selectById_num (E : Env) (st : Store) (a : Int) :
    selectById E st (.num a) = st.rows.filter fun u => a == u.id := rfl

theorem mem_selectById_num (E : Env) (st : Store) (a : Int) (u : User)
    (h : u ∈ selectById E st (.num a)) : u ∈ st.rows ∧ u.id = a := by
  rw [selectById_num, List.mem_filter] at h
  have := h.2
  simp only [beq_iff_eq] at this
  exact ⟨h.1, this.symm⟩

theorem selectById_ne_nil_of_present (E : Env) (st : Store) (a : Int) (h : Present a st) :
    selectById E st (.num a) ≠ [] := by
  obtain ⟨u, hu, hid⟩ := h
  intro e
  have : u ∈ selectById E st (.num a) := by
    rw [selectById_num, List.mem_filter]
    exact ⟨hu, by simp [hid]⟩
  rw [e] at this
  simp at this

theorem gate_error_status (E : Env) (st : Store) (o : Oracle) (req : Request) (r : Response)
    (h : gate E st o req = .error r) : r.status ≠ 200 := by
  unfold gate at h
  cases ha : authenticateToken E o.now req with
  | error r1 =>
    rw [ha] at h
    cases h
    unfold authenticateToken at ha
    split at ha
    · cases ha; decide
    · split at ha
      · cases ha; decide
      · split at ha
        · cases ha
        · cases ha; decide
  | ok user =>
    rw [ha] at h
    cases hc : checkUserStatus E st o user with
    | ok v => simp [hc] at h
    | error r1 =>
      simp only [hc, Except.error.injEq] at h
      subst h
      unfold checkUserStatus at hc
      split at hc
      · cases hc; decide
      · split at hc
        · cases hc; decide
        · split at hc
          · cases hc; decide
          · cases hc

theorem block_success (E : Env) (st : Store) (o : Oracle) (req : Request)
    (hroute : req.route = .block) (h200 : (handle E st o req).1.status = 200) :
    ∃ ids, req.body.userIds = some ids ∧
      (handle E st o req).2 = updateStatus E st ids "blocked" := by
  have hp : req.route.isProtected = true := by simp [hroute, Route.isProtected]
  cases hg : gate E st o req with
  | error r =>
    rw [handle_of_gate_error E st o req r hp hg] at h200
    exact absurd h200 (gate_error_status E st o req r hg)
  | ok user =>
    have h : handle E st o req = blockHandler E st o user req.body := by
      rw [handle_of_gate_ok E st o req user hp hg]
      simp [protectedHandler, hroute]
    rw [h] at h200 ⊢
    unfold blockHandler at h200 ⊢
    cases hb : req.body.userIds with
    | none => simp [hb, errorResponse] at h200
    | some ids =>
      refine ⟨ids, rfl, ?_⟩
      simp only [hb] at h200 ⊢
      split
      · rename_i h1
        simp [h1, errorResponse] at h200
      · rename_i h1
        split
        · rename_i h2
          simp [h1, h2, errorResponse] at h200
        · split <;> rfl

theorem idsBelowNext_preserved (E : Env) (st : Store) (o : Oracle) (req : Request)
    (hwf : IdsBelowNext st) :
    IdsBelowNext (handle E st o req).2 ∧ st.nextId ≤ (handle E st o req).2.nextId := by
  rcases handle_effect E st o req with
    h | ⟨_, n, e, d, h⟩ | ⟨_, id, h⟩ | ⟨_, _, ids, _, _, h⟩ | ⟨_, _, ids, _, _, h⟩
      | ⟨_, _, ids, _, _, h⟩
  · rw [h]
    exact ⟨hwf, le_refl _⟩
  · rw [h]
    refine ⟨?_, by simp [insertUser]⟩
    intro u hu
    simp only [insertUser, List.mem_append, List.mem_singleton] at hu ⊢
    rcases hu with hu | hu
    · have := hwf u hu
      omega
    · subst hu
      simp [newRow]
  · rw [h]
    refine ⟨?_, le_refl _⟩
    intro u hu
    simp only [updateLastLogin, List.mem_map] at hu ⊢
    obtain ⟨v, hv, rfl⟩ := hu
    have := hwf v hv
    split <;> exact this
  · rw [h]
    refine ⟨?_, le_refl _⟩
    intro u hu
    simp only [updateStatus, List.mem_map] at hu ⊢
    obtain ⟨v, hv, rfl⟩ := hu
    have := hwf v hv
    split <;> exact this
  · rw [h]
    refine ⟨?_, le_refl _⟩
    intro u hu
    simp only [updateStatus, List.mem_map] at hu ⊢
    obtain ⟨v, hv, rfl⟩ := hu
    have := hwf v hv
    split <;> exact this
  · rw [h]
    refine ⟨?_, le_refl _⟩
    intro u hu
    simp only [deleteRows, List.mem_filter] at hu ⊢
    exact hwf u hu.1

theorem allBlocked_after_update (E : Env) (st : Store) (a : Int) (ids : List JsVal)
    (hin : sqlIn E ids a = true) :
    AllBlocked a (updateStatus E st ids "blocked") := by
  intro u hu hid
  simp only [updateStatus, List.mem_map] at hu
  obtain ⟨v, _, rfl⟩ := hu
  by_cases hv : sqlIn E ids v.id = true
  · simp [hv]
  · simp only [hv] at hid
    simp only [Bool.false_eq_true, if_false] at hid
    rw [hid] at hv
    exact absurd hin hv

theorem allBlocked_preserved (E : Env) (a : Int) (st : Store) (o : Oracle) (req : Request)
    (ha : a < st.nextId) (hb : AllBlocked a st)
    (hno : ¬ Succeeds E a .unblock st (o, req)) :
    AllBlocked a (handle E st o req).2 := by
  rcases handle_effect E st o req with
    h | ⟨_, n, e, d, h⟩ | ⟨_, id, h⟩ | ⟨_, _, ids, _, _, h⟩ | ⟨hr, _, ids, hids, h200, h⟩
      | ⟨_, _, ids, _, _, h⟩
  · rw [h]
    exact hb
  · rw [h]
    intro u hu hid
    simp only [insertUser, List.mem_append, List.mem_singleton] at hu
    rcases hu with hu | hu
    · exact hb u hu hid
    · subst hu
      simp only [newRow] at hid
      omega
  · rw [h]
    intro u hu hid
    simp only [updateLastLogin, List.mem_map] at hu
    obtain ⟨v, hv, rfl⟩ := hu
    by_cases hc : (v.id == id) = true
    · simp only [hc, if_true] at hid ⊢
      exact hb v hv hid
    · simp only [hc] at hid ⊢
      exact hb v hv hid
  · rw [h]
    intro u hu hid
    simp only [updateStatus, List.mem_map] at hu
    obtain ⟨v, hv, rfl⟩ := hu
    by_cases hc : sqlIn E ids v.id = true
    · simp [hc]
    · simp only [hc] at hid ⊢
      exact hb v hv hid
  · have hout : sqlIn E ids a ≠ true := fun hin => hno ⟨hr, ⟨ids, hids, hin⟩, h200⟩
    rw [h]
    intro u hu hid
    simp only [updateStatus, List.mem_map] at hu
    obtain ⟨v, hv, rfl⟩ := hu
    by_cases hc : sqlIn E ids v.id = true
    · simp only [hc, if_true] at hid
      rw [hid] at hc
      exact absurd hc hout
    · simp only [hc] at hid ⊢
      exact hb v hv hid
  · rw [h]
    intro u hu hid
    simp only [deleteRows, List.mem_filter] at hu
    exact hb u hu.1 hid

theorem present_preserved (E : Env) (a : Int) (st : Store) (o : Oracle) (req : Request)
    (hp : Present a st) (hno : ¬ Succeeds E a .delete st (o, req)) :
    Present a (handle E st o req).2 := by
  obtain ⟨u, hu, hid⟩ := hp
  rcases handle_effect E st o req with
    h | ⟨_, n, e, d, h⟩ | ⟨_, id, h⟩ | ⟨_, _, ids, _, _, h⟩ | ⟨_, _, ids, _, _, h⟩
      | ⟨hr, _, ids, hids, h200, h⟩
  · rw [h]
    exact ⟨u, hu, hid⟩
  · rw [h]
    exact ⟨u, by simp [insertUser, hu], hid⟩
  · rw [h]
    refine ⟨_, List.mem_map_of_mem _ hu, ?_⟩
    dsimp only
    split <;> exact hid
  · rw [h]
    refine ⟨_, List.mem_map_of_mem _ hu, ?_⟩
    dsimp only
    split <;> exact hid
  · rw [h]
    refine ⟨_, List.mem_map_of_mem _ hu, ?_⟩
    dsimp only
    split <;> exact hid
  · have hout : sqlIn E ids a ≠ true := fun hin => hno ⟨hr, ⟨ids, hids, hin⟩, h200⟩
    rw [h]
    refine ⟨u, ?_, hid⟩
    simp only [deleteRows, List.mem_filter]
    refine ⟨hu, ?_⟩
    rw [hid]
    simpa using hout

theorem allBlocked_run (E : Env) (a : Int) (evs : List (Oracle × Request)) (st : Store)
    (hwf : IdsBelowNext st) (ha : a < st.nextId) (hb : AllBlocked a st)
    (hno : Never E a .unblock st evs) :
    AllBlocked a (run E st evs) := by
  induction evs generalizing st with
  | nil => exact hb
  | cons ev rest ih =>
    obtain ⟨o, req⟩ := ev
    have h := idsBelowNext_preserved E st o req hwf
    exact ih _ h.1 (lt_of_lt_of_le ha h.2) (allBlocked_preserved E a st o req ha hb hno.1) hno.2

theorem present_run (E : Env) (a : Int) (evs : List (Oracle × Request)) (st : Store)
    (hp : Present a st) (hno : Never E a .delete st evs) :
    Present a (run E st evs) := by
  induction evs generalizing st with
  | nil => exact hp
  | cons ev rest ih =>
    obtain ⟨o, req⟩ := ev
    exact ih _ (present_preserved E a st o req hp hno.1) hno.2

theorem checkUserStatus_allBlocked (E : Env) (a : Int) (st : Store) (o : Oracle) (user : Payload)
    (hb : AllBlocked a st) (hid : user.userId = .num a) :
    (o.firstQueryFails = true →
      checkUserStatus E st o user = .error (errorResponse 500 "Database error")) ∧
    (o.firstQueryFails = false → selectById E st (.num a) = [] →
      checkUserStatus E st o user = .error (errorResponse 404 "User not found")) ∧
    (o.firstQueryFails = false → selectById E st (.num a) ≠ [] →
      checkUserStatus E st o user = .error (errorResponse 403 "User is blocked")) := by
  unfold checkUserStatus
  rw [hid]
  refine ⟨fun hq => by simp [hq], fun hq hs => by simp [hq, hs], fun hq hs => ?_⟩
  cases hsel : selectById E st (.num a) with
  | nil => exact absurd hsel hs
  | cons u rest =>
    have hu := mem_selectById_num E st a u (by rw [hsel]; simp)
    simp [hq, hb u hu.1 hu.2]

/-- C1, as stated, fails in three ways, each shown in a store whose ids are
below the next auto-increment id.  After a successful block of the account, a
request with its token is not answered 403 when an unblock naming the account
was handled in between (the handler is invoked and answers 200); nor, right
after the block, when the status lookup reports an error (the answer is 500);
nor, without any unblock and with a working lookup, when a delete naming the
account was handled in between (the answer is 404). -/
theorem blocked_token_not_always_403 :
    (¬ ∀ (E : Env) (st : Store) (o : Oracle) (req : Request) (a : Int)
        (evs : List (Oracle × Request)) (o' : Oracle) (req' : Request) (user : Payload),
      IdsBelowNext st →
      req.route = .block → (handle E st o req).1.status = 200 →
      (∃ ids, req.body.userIds = some ids ∧ sqlIn E ids a = true) →
      Present a st →
      req'.route.isProtected = true →
      authenticateToken E o'.now req' = .ok user → user.userId = .num a →
      o'.firstQueryFails = false →
      (handle E (run E (handle E st o req).2 evs) o' req').1.status = 403) ∧
    (¬ ∀ (E : Env) (st : Store) (o : Oracle) (req : Request) (a : Int)
        (o' : Oracle) (req' : Request) (user : Payload),
      IdsBelowNext st →
      req.route = .block → (handle E st o req).1.status = 200 →
      (∃ ids, req.body.userIds = some ids ∧ sqlIn E ids a = true) →
      Present a st →
      req'.route.isProtected = true →
      authenticateToken E o'.now req' = .ok user → user.userId = .num a →
      (handle E (handle E st o req).2 o' req').1.status = 403) ∧
    (¬ ∀ (E : Env) (st : Store) (o : Oracle) (req : Request) (a : Int)
        (evs : List (Oracle × Request)) (o' : Oracle) (req' : Request) (user : Payload),
      IdsBelowNext st →
      req.route = .block → (handle E st o req).1.status = 200 →
      (∃ ids, req.body.userIds = some ids ∧ sqlIn E ids a = true) →
      Present a st →
      Never E a .unblock (handle E st o req).2 evs →
      req'.route.isProtected = true →
      authenticateToken E o'.now req' = .ok user → user.userId = .num a →
      o'.firstQueryFails = false →
      (handle E (run E (handle E st o req).2 evs) o' req').1.status = 403) := by
  refine ⟨?_, ?_, ?_⟩
  · intro h
    have h1 := h (refEnv none) twoUsers (calm 10) (bobRequest .block (some [.num 1])) 1
      [(calm 20, bobRequest .unblock (some [.num 1]))] (calm 30) (annRequest .getUsers none)
      annPayload (by decide) rfl (by decide) ⟨[.num 1], rfl, by decide⟩
      ⟨ann, by decide, rfl⟩ rfl (by decide) rfl rfl
    revert h1
    decide
  · intro h
    have h1 := h (refEnv none) twoUsers (calm 10) (bobRequest .block (some [.num 1])) 1
      (firstFails 30) (annRequest .getUsers none)
      annPayload (by decide) rfl (by decide) ⟨[.num 1], rfl, by decide⟩
      ⟨ann, by decide, rfl⟩ rfl (by decide) rfl
    revert h1
    decide
  · intro h
    have h1 := h (refEnv none) twoUsers (calm 10) (bobRequest .block (some [.num 1])) 1
      [(calm 20, bobRequest .delete (some [.num 1]))] (calm 30) (annRequest .getUsers none)
      annPayload (by decide) rfl (by decide) ⟨[.num 1], rfl, by decide⟩
      ⟨ann, by decide, rfl⟩ ⟨fun hs => absurd hs.1 (by decide), trivial⟩ rfl (by decide) rfl rfl
    revert h1
    decide

/-- C1, amended. In a store whose ids are below the next auto-increment id,
let a block request whose `userIds` select the id of an account present in
the store be answered 200, and let any sequence of requests follow none of
which is an unblock that selects that id and is answered 200.  Then a request
on a protected route whose token verifies to that id is rejected by
`checkUserStatus`: the handler is not invoked and the store is untouched.
The answer is 500 `Database error` when the status lookup fails; when it does
not fail the answer is 403 `User is blocked` if no delete selecting that id
was answered 200 in between, and in every case it is that 403 or, the account
being no longer in the store, 404 `User not found`. -/
theorem blocked_token_rejected (E : Env) (st : Store) (o : Oracle) (req : Request) (a : Int)
    (evs : List (Oracle × Request)) (o' : Oracle) (req' : Request) (user : Payload)
    (hwf : IdsBelowNext st)
    (hroute : req.route = .block) (h200 : (handle E st o req).1.status = 200)
    (htarget : ∃ ids, req.body.userIds = some ids ∧ sqlIn E ids a = true)
    (hpresent : Present a st)
    (hkeep : Never E a .unblock (handle E st o req).2 evs)
    (hprot : req'.route.isProtected = true)
    (htoken : authenticateToken E o'.now req' = .ok user) (hid : user.userId = .num a) :
    (∃ r, checkUserStatus E (run E (handle E st o req).2 evs) o' user = .error r ∧
      gate E (run E (handle E st o req).2 evs) o' req' = .error r ∧
      handle E (run E (handle E st o req).2 evs) o' req'
        = (r, run E (handle E st o req).2 evs)) ∧
    (o'.firstQueryFails = true →
      checkUserStatus E (run E (handle E st o req).2 evs) o' user
        = .error (errorResponse 500 "Database error") ∧
      handle E (run E (handle E st o req).2 evs) o' req'
        = (errorResponse 500 "Database error", run E (handle E st o req).2 evs)) ∧
    (o'.firstQueryFails = false → Never E a .delete (handle E st o req).2 evs →
      checkUserStatus E (run E (handle E st o req).2 evs) o' user
        = .error (errorResponse 403 "User is blocked") ∧
      handle E (run E (handle E st o req).2 evs) o' req'
        = (errorResponse 403 "User is blocked", run E (handle E st o req).2 evs)) ∧
    (o'.firstQueryFails = false →
      (checkUserStatus E (run E (handle E st o req).2 evs) o' user
          = .error (errorResponse 403 "User is blocked") ∧
        handle E (run E (handle E st o req).2 evs) o' req'
          = (errorResponse 403 "User is blocked", run E (handle E st o req).2 evs)) ∨
      (¬ Present a (run E (handle E st o req).2 evs) ∧
        checkUserStatus E (run E (handle E st o req).2 evs) o' user
          = .error (errorResponse 404 "User not found") ∧
        handle E (run E (handle E st o req).2 evs) o' req'
          = (errorResponse 404 "User not found", run E (handle E st o req).2 evs))) := by
  obtain ⟨ids, hids, hin⟩ := htarget
  obtain ⟨ids', hids', hst⟩ := block_success E st o req hroute h200
  have hsame : ids' = ids := by
    rw [hids] at hids'
    exact (Option.some.inj hids').symm
  subst hsame
  have hwf1 := idsBelowNext_preserved E st o req hwf
  have ha : a < (handle E st o req).2.nextId := by
    obtain ⟨u, hu, hua⟩ := hpresent
    have := hwf u hu
    have := hwf1.2
    omega
  have hb1 : AllBlocked a (handle E st o req).2 := by
    rw [hst]
    exact allBlocked_after_update E st a ids' hin
  have hp1 : Present a (handle E st o req).2 := by
    rw [hst]
    obtain ⟨u, hu, hua⟩ := hpresent
    refine ⟨_, List.mem_map_of_mem _ hu, ?_⟩
    dsimp only
    split <;> exact hua
  have hb2 := allBlocked_run E a evs _ hwf1.1 ha hb1 hkeep
  obtain ⟨h500, h404, h403⟩ := checkUserStatus_allBlocked E a _ o' user hb2 hid
  have hgate : ∀ r, checkUserStatus E (run E (handle E st o req).2 evs) o' user = .error r →
      gate E (run E (handle E st o req).2 evs) o' req' = .error r ∧
      handle E (run E (handle E st o req).2 evs) o' req'
        = (r, run E (handle E st o req).2 evs) := by
    intro r hr
    have hg : gate E (run E (handle E st o req).2 evs) o' req' = .error r := by
      simp [gate, htoken, hr]
    exact ⟨hg, handle_of_gate_error E _ o' req' r hprot hg⟩
  have hcases : o'.firstQueryFails = false →
      checkUserStatus E (run E (handle E st o req).2 evs) o' user
          = .error (errorResponse 403 "User is blocked") ∨
      (¬ Present a (run E (handle E st o req).2 evs) ∧
        checkUserStatus E (run E (handle E st o req).2 evs) o' user
          = .error (errorResponse 404 "User not found")) := by
    intro hq
    by_cases hs : selectById E (run E (handle E st o req).2 evs) (.num a) = []
    · exact Or.inr ⟨fun hp => selectById_ne_nil_of_present E _ a hp hs, h404 hq hs⟩
    · exact Or.inl (h403 hq hs)
  refine ⟨?_, ?_, ?_, ?_⟩
  · by_cases hq : o'.firstQueryFails = true
    · exact ⟨_, h500 hq, hgate _ (h500 hq)⟩
    · have hq' : o'.firstQueryFails = false := by simpa using hq
      rcases hcases hq' with h | ⟨_, h⟩
      · exact ⟨_, h, hgate _ h⟩
      · exact ⟨_, h, hgate _ h⟩
  · intro hq
    exact ⟨h500 hq, (hgate _ (h500 hq)).2⟩
  · intro hq hdel
    have hp2 := present_run E a evs _ hp1 hdel
    have h := h403 hq (selectById_ne_nil_of_present E _ a hp2)
    exact ⟨h, (hgate _ h).2⟩
  · intro hq
    rcases hcases hq with h | ⟨hnp, h⟩
    · exact Or.inl ⟨h, (hgate _ h).2⟩
    · exact Or.inr ⟨hnp, h, (hgate _ h).2⟩

/-- C1, amended, at three traces after Bob has blocked Ann: Ann asks for a
deletion of Bob and then for the list of users (403); Ann asks for the list
while the lookup fails (500); Bob deletes Ann, who then asks for the list
(404). -/
theorem blocked_token_rejected_witness :
    handle (refEnv none)
        (run (refEnv none) annBlocked [(calm 20, annRequest .delete (some [.num 2]))])
        (calm 30) (annRequest .getUsers none)
      = (errorResponse 403 "User is blocked",
          run (refEnv none) annBlocked [(calm 20, annRequest .delete (some [.num 2]))]) ∧
    handle (refEnv none) (run (refEnv none) annBlocked []) (firstFails 30)
        (annRequest .getUsers none)
      = (errorResponse 500 "Database error", run (refEnv none) annBlocked []) ∧
    (handle (refEnv none)
        (run (refEnv none) annBlocked [(calm 20, bobRequest .delete (some [.num 1]))])
        (calm 30) (annRequest .getUsers none)).1
      = errorResponse 404 "User not found" :=
  ⟨((blocked_token_rejected (refEnv none) twoUsers (calm 10)
      (bobRequest .block (some [.num 1])) 1
      [(calm 20, annRequest .delete (some [.num 2]))] (calm 30) (annRequest .getUsers none)
      annPayload (by decide) rfl (by decide) ⟨[.num 1], rfl, by decide⟩ ⟨ann, by decide, rfl⟩
      ⟨fun h => absurd h.1 (by decide), trivial⟩ rfl (by decide) rfl).2.2.1 rfl
      ⟨fun h => absurd h.2.2 (by decide), trivial⟩).2,
    ((blocked_token_rejected (refEnv none) twoUsers (calm 10)
      (bobRequest .block (some [.num 1])) 1 [] (firstFails 30) (annRequest .getUsers none)
      annPayload (by decide) rfl (by decide) ⟨[.num 1], rfl, by decide⟩ ⟨ann, by decide, rfl⟩
      trivial rfl (by decide) rfl).2.1 rfl).2,
    (((blocked_token_rejected (refEnv none) twoUsers (calm 10)
      (bobRequest .block (some [.num 1])) 1
      [(calm 20, bobRequest .delete (some [.num 1]))] (calm 30) (annRequest .getUsers none)
      annPayload (by decide) rfl (by decide) ⟨[.num 1], rfl, by decide⟩ ⟨ann, by decide, rfl⟩
      ⟨fun h => absurd h.1 (by decide), trivial⟩ rfl (by decide) rfl).2.2.2 rfl).resolve_left
      (fun h => absurd (congrArg (fun x => x.1.status) h.2) (by decide))).2.2 ▸ rfl⟩

/-! ## The secret of the issuer and of the verifier -/

theorem loginSecret_default (E : Env) (h : E.JWT_SECRET = none ∨ E.JWT_SECRET = some "") :
    loginSecret E = "Nataraz" := by
  rcases h with h | h <;> simp [loginSecret, h]

theorem loginSecret_configured (E : Env) (s : String) (h : E.JWT_SECRET = some s)
    (hne : s ≠ "") : loginSecret E = s := by
  simp [loginSecret, h, hne]

/-- The token issued by a successful login is signed under `loginSecret`. -/
theorem login_token (E : Env) (st : Store) (o : Oracle) (req : Request) (token : String)
    (h : (login E st o req).1.token = some token) :
    ∃ u rest, selectByEmail E st (req.body.email.getD "") = u :: rest ∧
      token = jwtSign E.jwt (.num u.id) (loginSecret E) o.now := by
  unfold login at h
  split at h
  · simp [errorResponse] at h
  · split at h
    · simp [errorResponse] at h
    · split at h
      · simp [errorResponse] at h
      · rename_i u rest hsel
        split at h
        · simp [errorResponse] at h
        · split at h
          · simp [errorResponse] at h
          · exact ⟨u, rest, hsel, (Option.some.inj h).symm⟩

/-- With the default secret, a token of the login route that the library
decodes under the key it was encoded with is accepted by `jwt.verify` at every
time before its expiry. -/
theorem issue_verify_default_secret (E : Env) (id : Int) (now later : Nat)
    (hsecret : loginSecret E = "Nataraz")
    (hlib : E.jwt.decode (jwtSign E.jwt (.num id) "Nataraz" now) "Nataraz"
      = .ok { userId := .num id, iat := some now, exp := some (now + 3600) })
    (hlt : later < now + 3600) :
    jwtVerify E.jwt (jwtSign E.jwt (.num id) (loginSecret E) now) "Nataraz" later
      = .ok { userId := .num id, iat := some now, exp := some (now + 3600) } := by
  rw [hsecret]
  unfold jwtVerify
  rw [hlib]
  simp only [ge_iff_le]
  rw [if_neg (by omega)]

/-- C3 at the configuration `JWT_SECRET=s3cret`: the login route signs the
token of Ann under `s3cret`, and `authenticateToken`, which verifies under
`Nataraz`, answers the request carrying that token one second later with 400
`Invalid token.`; with `JWT_SECRET` unset the same request is accepted. -/
theorem configured_secret_token_rejected :
    (handle (refEnv (some "s3cret")) twoUsers (calm 0) (loginRequest "a@x.com" "p1")).1.token
      = some "s3cret.n1.0.3600" ∧
    authenticateToken (refEnv (some "s3cret")) 1 (listRequest (some "Bearer s3cret.n1.0.3600"))
      = .error invalidTokenResponse ∧
    (handle (refEnv none) twoUsers (calm 0) (loginRequest "a@x.com" "p1")).1.token
      = some "Nataraz.n1.0.3600" ∧
    authenticateToken (refEnv none) 1 (listRequest (some "Bearer Nataraz.n1.0.3600"))
      = .ok annPayload := by
  refine ⟨by decide, by decide, by decide, by decide⟩

/-! ## The block request of the front end (`script.js`) -/

theorem getSelectedUsers_no_number (boxes : List Checkbox) (a : Int) :
    jsIncludes (getSelectedUsers boxes) (.num a) = false := by
  simp only [jsIncludes, getSelectedUsers, List.any_eq_false, List.mem_map, List.mem_filter]
  rintro x ⟨b, -, rfl⟩
  simp

/-- The answer of the block handler to the ids that the front end sends never
carries `logout: true` when the `userId` of the token is a number. -/
theorem front_end_block_never_logs_out (E : Env) (st : Store) (o : Oracle) (user : Payload)
    (a : Int) (boxes : List Checkbox) (body : Body) (hid : user.userId = .num a)
    (hb : body.userIds = some (getSelectedUsers boxes)) :
    (blockHandler E st o user body).1.logout = false := by
  unfold blockHandler
  rw [hb, hid]
  simp only [getSelectedUsers_no_number]
  split
  · rfl
  · split <;> rfl

/-- C5 at the self-block of Ann.  With her id sent as the string `1`, as the
front end sends it, her row is blocked and the answer is 200 `Users blocked
successfully` without `logout`; with her id sent as the number 1 the answer
carries `logout: true`. -/
theorem self_block_string_id_no_logout :
    blockClick "Nataraz.n1.0.3600" [renderCheckbox ann true, renderCheckbox bob false]
      = some (annRequest .block (some [.str "1"])) ∧
    handle (refEnv none) twoUsers (calm 10) (annRequest .block (some [.str "1"]))
      = (messageResponse 200 "Users blocked successfully",
          { rows := [{ ann with status := "blocked" }, bob], nextId := 3 }) ∧
    (handle (refEnv none) twoUsers (calm 10) (annRequest .block (some [.str "1"]))).1.logout
      = false ∧
    (handle (refEnv none) twoUsers (calm 10) (annRequest .block (some [.num 1]))).1.logout
      = true := by
  refine ⟨by decide, by decide, by decide, by decide⟩

end UserMgmt
